import Mathlib

/- Verification development for the video merge pipeline of
   src/ads_video_generation_agent/agent.py (function merge_videos,
   lines 232-305). The function is embedded shallowly: every external
   effect (blob download, video decode, encode, upload, handle close,
   directory removal) is given its outcome by an explicit World record,
   and the embedding mirrors the control flow of the Python body,
   including the try/except/finally structure. -/

namespace AdsMerge

/- Frame sequence of one video object. -/
abbrev Content := List Nat

/- Python string helper, embedded over lists of characters because the
   Lean core String functions do not reduce in the kernel. -/

/- Models str.replace of the Python line
   uri.replace of the pattern g s : / / by the empty string:
   every non-overlapping occurrence, scanned left to right, is dropped. -/
def removeGsOccurrences : List Char → List Char
  | 'g' :: 's' :: ':' :: '/' :: '/' :: rest => removeGsOccurrences rest
  | c :: rest => c :: removeGsOccurrences rest
  | [] => []

/- Models the Python call split with separator slash and maxsplit 1,
   followed by unpacking into exactly two names: the result is the part
   before the first slash and the part after it, and none when the list
   has no slash at all (in Python the unpacking then raises ValueError). -/
def splitOnceSlash : List Char → Option (List Char × List Char)
  | [] => none
  | '/' :: rest => some ([], rest)
  | c :: rest =>
      match splitOnceSlash rest with
      | none => none
      | some (a, b) => some (c :: a, b)

def containsSlash (l : List Char) : Bool := l.any (fun c => c == '/')

def startsWithSlash : List Char → Bool
  | [] => false
  | c :: _ => c == '/'

/- Models line 259: bucket_name and source_blob_name are obtained by
   stripping every occurrence of the gs scheme prefix and splitting at
   the first remaining slash; none models the ValueError raised when the
   split yields a single part (then caught by the except clause). -/
def parseGcsUri (uri : String) : Option (String × String) :=
  match splitOnceSlash (removeGsOccurrences uri.data) with
  | none => none
  | some (b, k) => some (String.mk b, String.mk k)

/- A local path produced by os.path.join of the unique workspace
   directory with a second component p: when p is relative the result is
   a path inside the workspace with relative part p; when p is absolute
   os.path.join discards the workspace and yields p itself. The
   workspace directory name (derived from a fresh uuid) is call-unique,
   so paths of one call are fully described by this sum. -/
inductive LPath where
  | inDir (name : String)
  | outside (p : String)
deriving DecidableEq

/- Models os.path.join of the workspace directory and p (lines 263
   and 275). -/
def osPathJoin (p : String) : LPath :=
  if startsWithSlash p.data then LPath.outside p else LPath.inDir p

/- Local files written during one call, newest write first. -/
abbrev FileStore := List (LPath × Content)

def fsWrite (fs : FileStore) (p : LPath) (c : Content) : FileStore :=
  (p, c) :: fs

/- Reading takes the newest write at the path, so a later download to
   the same local path overwrites an earlier one. -/
def fsRead : FileStore → LPath → Option Content
  | [], _ => none
  | (q, c) :: rest, p => if p = q then some c else fsRead rest p

/- Outcomes of the external collaborators for one (or more) calls. The
   uuid field is the stream of values produced by successive uuid4
   calls; remote is the blob store content; the Bool flags inject
   success or failure of each effectful step. absWriteOk is the host
   filesystem verdict on creating a file at an absolute path outside
   the workspace (whether its parent directory exists and is writable:
   for example /tmp is, since the workspace itself is created there). -/
structure World where
  remote : String → String → Option Content
  uuid : Nat → String
  absWriteOk : String → Bool
  dl1Ok : Bool
  dl2Ok : Bool
  dec1Ok : Bool
  dec2Ok : Bool
  encodeOk : Bool
  uploadOk : Bool
  close1Ok : Bool
  close2Ok : Bool
  rmtreeOk : Bool

/- Whether a local file can be created at the target. Inside the
   workspace only a nonempty name with no further separator works: the
   call creates the workspace directory itself and nothing below it
   (line 247), so a target in a subdirectory of the workspace or equal
   to the workspace directory cannot be opened for writing. For a path
   outside the workspace (an absolute blob name makes os.path.join
   discard the workspace) the host filesystem decides. -/
def canWrite (w : World) : LPath → Bool
  | LPath.inDir name => !(containsSlash name.data) && !(name.data.isEmpty)
  | LPath.outside p => w.absWriteOk p

/- Models blob.download_to_filename (line 264): it succeeds iff the
   remote object exists, the injected transfer flag is true, and the
   local target can be created. Any of the three failure modes raises,
   which the caller catches alike. -/
def downloadObject (w : World) (okFlag : Bool) (bucket key : String) : Option Content :=
  if canWrite w (osPathJoin key) && okFlag then w.remote bucket key else none

/- Result of the whole call: a returned GCS URI string, the Python None
   returned by the except clause (line 293), or an exception raised out
   of the finally block. -/
inductive MergeResult where
  | ok (uri : String)
  | nullResult
  | raisedCleanup
deriving DecidableEq

/- Observable trace of the try/except part of merge_videos. uploads
   lists the attempted uploads as (bucket, key, content); outKey is the
   generated output object name when execution reached line 274;
   localPaths is local_file_paths; clip1Defined and clip2Defined record
   whether the clip variables were assigned (they drive the finally
   block); uuidNext is the next unused index of the uuid stream. -/
structure TryOut where
  res : MergeResult
  uploads : List (String × String × Content)
  outKey : Option String
  localPaths : List LPath
  decodeAttempted : Bool
  clip1Defined : Bool
  clip2Defined : Bool
  uuidNext : Nat

/- The try/except body (lines 252-293), with n the first unused index of
   the uuid stream: draw n named the workspace directory (line 246, not
   otherwise observable since the workspace is call-unique), draw n+1
   names the output file (line 274). The two loop iterations of lines
   258-266 are unrolled. After the loop the variable bucket_name holds
   the bucket of the SECOND uri, and line 282 uses it for the upload.
   Every raising step is caught at line 291 and becomes nullResult. -/
def tryPhase (w : World) (uri1 uri2 : String) (n : Nat) : TryOut :=
  match parseGcsUri uri1 with
  | none =>
      { res := .nullResult, uploads := [], outKey := none, localPaths := [],
        decodeAttempted := false, clip1Defined := false, clip2Defined := false,
        uuidNext := n + 1 }
  | some (b1, k1) =>
      match downloadObject w w.dl1Ok b1 k1 with
      | none =>
          { res := .nullResult, uploads := [], outKey := none, localPaths := [],
            decodeAttempted := false, clip1Defined := false, clip2Defined := false,
            uuidNext := n + 1 }
      | some c1 =>
          match parseGcsUri uri2 with
          | none =>
              { res := .nullResult, uploads := [], outKey := none,
                localPaths := [osPathJoin k1],
                decodeAttempted := false, clip1Defined := false,
                clip2Defined := false, uuidNext := n + 1 }
          | some (b2, k2) =>
              match downloadObject w w.dl2Ok b2 k2 with
              | none =>
                  { res := .nullResult, uploads := [], outKey := none,
                    localPaths := [osPathJoin k1],
                    decodeAttempted := false, clip1Defined := false,
                    clip2Defined := false, uuidNext := n + 1 }
              | some c2 =>
                  match (if w.dec1Ok then
                           fsRead (fsWrite (fsWrite [] (osPathJoin k1) c1)
                                     (osPathJoin k2) c2) (osPathJoin k1)
                         else none) with
                  | none =>
                      { res := .nullResult, uploads := [], outKey := none,
                        localPaths := [osPathJoin k1, osPathJoin k2],
                        decodeAttempted := true,
                        clip1Defined := false, clip2Defined := false,
                        uuidNext := n + 1 }
                  | some f1 =>
                      match (if w.dec2Ok then
                               fsRead (fsWrite (fsWrite [] (osPathJoin k1) c1)
                                         (osPathJoin k2) c2) (osPathJoin k2)
                             else none) with
                      | none =>
                          { res := .nullResult, uploads := [], outKey := none,
                            localPaths := [osPathJoin k1, osPathJoin k2],
                            decodeAttempted := true,
                            clip1Defined := true, clip2Defined := false,
                            uuidNext := n + 1 }
                      | some f2 =>
                          if w.encodeOk then
                            if w.uploadOk then
                              { res := .ok ("gs://" ++ b2 ++ "/" ++
                                  ("stitched_" ++ w.uuid (n + 1) ++ ".mp4")),
                                uploads := [(b2,
                                  "stitched_" ++ w.uuid (n + 1) ++ ".mp4",
                                  f1 ++ f2)],
                                outKey := some
                                  ("stitched_" ++ w.uuid (n + 1) ++ ".mp4"),
                                localPaths := [osPathJoin k1, osPathJoin k2],
                                decodeAttempted := true,
                                clip1Defined := true, clip2Defined := true,
                                uuidNext := n + 2 }
                            else
                              { res := .nullResult,
                                uploads := [(b2,
                                  "stitched_" ++ w.uuid (n + 1) ++ ".mp4",
                                  f1 ++ f2)],
                                outKey := some
                                  ("stitched_" ++ w.uuid (n + 1) ++ ".mp4"),
                                localPaths := [osPathJoin k1, osPathJoin k2],
                                decodeAttempted := true,
                                clip1Defined := true, clip2Defined := true,
                                uuidNext := n + 2 }
                          else
                            { res := .nullResult, uploads := [],
                              outKey := some
                                ("stitched_" ++ w.uuid (n + 1) ++ ".mp4"),
                              localPaths := [osPathJoin k1, osPathJoin k2],
                              decodeAttempted := true,
                              clip1Defined := true, clip2Defined := true,
                              uuidNext := n + 2 }

/- Result of the finally block together with the final state of the
   workspace directory and whether shutil.rmtree was reached. -/
structure FinallyOut where
  result : MergeResult
  dirExists : Bool
  rmtreeAttempted : Bool

/- The finally block (lines 294-305): close clip1 if it was assigned,
   then clip2, then remove the workspace tree. The block has no handler
   of its own, so a step that raises skips the rest of the block and its
   exception replaces the pending return value; in particular a failing
   close skips the directory removal, and a failing removal leaves the
   directory behind. When every step succeeds the pending try/except
   result stands and the directory is gone. -/
def finallyPhase (w : World) (t : TryOut) : FinallyOut :=
  if t.clip1Defined && !w.close1Ok then
    { result := .raisedCleanup, dirExists := true, rmtreeAttempted := false }
  else if t.clip2Defined && !w.close2Ok then
    { result := .raisedCleanup, dirExists := true, rmtreeAttempted := false }
  else if w.rmtreeOk then
    { result := t.res, dirExists := false, rmtreeAttempted := true }
  else
    { result := .raisedCleanup, dirExists := true, rmtreeAttempted := true }

/- Full observable outcome of one merge_videos call. -/
structure Outcome where
  result : MergeResult
  uploads : List (String × String × Content)
  outKey : Option String
  localPaths : List LPath
  decodeAttempted : Bool
  dirExists : Bool
  rmtreeAttempted : Bool
  uuidEnd : Nat

/- merge_videos (lines 232-305): the try/except body followed
   unconditionally by the finally block. -/
def mergeVideos (w : World) (uri1 uri2 : String) (n : Nat) : Outcome :=
  { result := (finallyPhase w (tryPhase w uri1 uri2 n)).result
    uploads := (tryPhase w uri1 uri2 n).uploads
    outKey := (tryPhase w uri1 uri2 n).outKey
    localPaths := (tryPhase w uri1 uri2 n).localPaths
    decodeAttempted := (tryPhase w uri1 uri2 n).decodeAttempted
    dirExists := (finallyPhase w (tryPhase w uri1 uri2 n)).dirExists
    rmtreeAttempted := (finallyPhase w (tryPhase w uri1 uri2 n)).rmtreeAttempted
    uuidEnd := (tryPhase w uri1 uri2 n).uuidNext }

/- Well-formedness of a remote object reference, following the words of
   the specification: the shape scheme://bucket-name/key-path with a
   nonempty scheme before the first scheme marker and a nonempty bucket
   name before the next slash. Used only to compare the specification
   with what the code accepts. -/
def splitSchemeMarker : List Char → Option (List Char × List Char)
  | [] => none
  | ':' :: '/' :: '/' :: rest => some ([], rest)
  | c :: rest =>
      match splitSchemeMarker rest with
      | none => none
      | some (a, b) => some (c :: a, b)

def specWellFormedRef (s : String) : Bool :=
  match splitSchemeMarker s.data with
  | none => false
  | some (scheme, rest) =>
      !scheme.isEmpty &&
      match splitOnceSlash rest with
      | none => false
      | some (bucket, _) => !bucket.isEmpty

/- Concrete material for witnesses and counterexamples. -/

/- A small blob store holding distinct videos in two buckets, including
   two distinct objects that share the key x.mp4 and one object whose
   key path begins with a separator. -/
def remoteTwo : String → String → Option Content := fun b k =>
  if b = "bucketa" && k = "a.mp4" then some [1, 2]
  else if b = "bucketb" && k = "b.mp4" then some [3, 4]
  else if b = "bucketa" && k = "x.mp4" then some [1, 2]
  else if b = "bucketb" && k = "x.mp4" then some [3, 4]
  else if b = "a" && k = "b" then some [5]
  else if b = "bucket" && k = "/tmp/x.mp4" then some [7, 8]
  else none

/- An injective uuid stream for concrete runs. -/
def uuidStream : Nat → String := fun n => String.mk (List.replicate n 'a')

/- Every external step succeeds, and the host permits writes at
   absolute targets (their parent directories exist, like /tmp). -/
def wOk : World :=
  { remote := remoteTwo, uuid := uuidStream, absWriteOk := fun _ => true,
    dl1Ok := true, dl2Ok := true,
    dec1Ok := true, dec2Ok := true, encodeOk := true, uploadOk := true,
    close1Ok := true, close2Ok := true, rmtreeOk := true }

/- The first download fails; everything else would succeed. -/
def wDl1Fail : World := { wOk with dl1Ok := false }

/- Closing the first clip fails; everything else succeeds. -/
def wCloseFail : World := { wOk with close1Ok := false }

/- Removing the workspace directory fails; everything else succeeds. -/
def wRmtreeFail : World := { wOk with rmtreeOk := false }

/- Helper lemmas. -/

theorem stitched_inj {a b : String}
    (h : "stitched_" ++ a ++ ".mp4" = "stitched_" ++ b ++ ".mp4") : a = b := by
  have hd := congrArg String.data h
  simp only [String.data_append] at hd
  exact String.ext (List.append_cancel_left (List.append_cancel_right hd))

theorem uuidStream_injective : Function.Injective uuidStream := by
  intro m n h
  have hl := congrArg (fun s => s.data.length) h
  simpa [uuidStream] using hl

/- The try/except part never raises out of the call: every exception of
   the pipeline is caught at line 291. -/
theorem tryPhase_res_ne_raised (w : World) (u1 u2 : String) (n : Nat) :
    (tryPhase w u1 u2 n).res ≠ MergeResult.raisedCleanup := by
  unfold tryPhase
  repeat' split
  all_goals simp

/- When an output object name was generated, it came from the uuid draw
   n + 1 and both draws of the call were consumed. -/
theorem tryPhase_outKey (w : World) (u1 u2 : String) (n : Nat) (k : String)
    (h : (tryPhase w u1 u2 n).outKey = some k) :
    k = "stitched_" ++ w.uuid (n + 1) ++ ".mp4" ∧
      (tryPhase w u1 u2 n).uuidNext = n + 2 := by
  revert h
  unfold tryPhase
  repeat' split
  all_goals intro h
  all_goals simp_all

theorem mergeVideos_outKey (w : World) (u1 u2 : String) (n : Nat) (k : String)
    (h : (mergeVideos w u1 u2 n).outKey = some k) :
    k = "stitched_" ++ w.uuid (n + 1) ++ ".mp4" ∧
      (mergeVideos w u1 u2 n).uuidEnd = n + 2 := by
  have h1 : (tryPhase w u1 u2 n).outKey = some k := by simpa [mergeVideos] using h
  obtain ⟨hk, hn⟩ := tryPhase_outKey w u1 u2 n k h1
  exact ⟨hk, by simp [mergeVideos, hn]⟩

/- Common shape of the abort paths: when the try/except body stops
   before decoding, the call performs no upload, clips stay unassigned,
   and a successful directory removal yields the null result. -/
theorem abortOutcome (w : World) (u1 u2 : String) (n : Nat) (t : TryOut)
    (ht : tryPhase w u1 u2 n = t) (hres : t.res = MergeResult.nullResult)
    (hups : t.uploads = []) (hdec : t.decodeAttempted = false)
    (hc1 : t.clip1Defined = false) (hc2 : t.clip2Defined = false) :
    (mergeVideos w u1 u2 n).uploads = [] ∧
    (mergeVideos w u1 u2 n).decodeAttempted = false ∧
    (w.rmtreeOk = true →
      (mergeVideos w u1 u2 n).result = MergeResult.nullResult) := by
  refine ⟨?_, ?_, ?_⟩
  · simp [mergeVideos, ht, hups]
  · simp [mergeVideos, ht, hdec]
  · intro hr
    simp [mergeVideos, finallyPhase, ht, hc1, hc2, hr, hres]

/-- C1: the claim states that merge_videos uploads the merged output to the
bucket named by the FIRST input reference. The code instead reuses the loop
variable bucket_name at line 282, which after the loop holds the bucket of
the SECOND reference, although the comment at line 281 states the intent of
using the first. Evaluated at a concrete pair of references with distinct
buckets and a fully successful run: the first reference parses to bucketa,
yet the upload and the returned URI name bucketb. -/
theorem c1_upload_goes_to_second_bucket :
    parseGcsUri "gs://bucketa/a.mp4" = some ("bucketa", "a.mp4") ∧
    (mergeVideos wOk "gs://bucketa/a.mp4" "gs://bucketb/b.mp4" 0).result =
      MergeResult.ok "gs://bucketb/stitched_a.mp4" ∧
    (mergeVideos wOk "gs://bucketa/a.mp4" "gs://bucketb/b.mp4" 0).uploads =
      [("bucketb", "stitched_a.mp4", [1, 2, 3, 4])] := by
  refine ⟨by decide, by decide, by decide⟩

/-- C2 counterexample: the claim states that a phase failure is surfaced as
a typed failure carrying phase and cause, never collapsed into a null
placeholder. At a concrete input whose first download fails, merge_videos
returns the null placeholder (the Python None of line 293) instead. -/
theorem c2_counterexample :
    (mergeVideos wDl1Fail "gs://bucketa/a.mp4" "gs://bucketb/b.mp4" 0).result =
      MergeResult.nullResult := by decide

/-- C2 (amended): whenever any phase of merge_videos fails (and the release
steps themselves succeed), the call returns the untyped null placeholder
None: every outcome of the pipeline other than success is collapsed to
nullResult, carrying no phase or cause. -/
theorem c2_amended (w : World) (u1 u2 : String) (n : Nat)
    (hc1 : w.close1Ok = true) (hc2 : w.close2Ok = true)
    (hr : w.rmtreeOk = true)
    (hfail : ∀ u, (mergeVideos w u1 u2 n).result ≠ MergeResult.ok u) :
    (mergeVideos w u1 u2 n).result = MergeResult.nullResult := by
  have hres : (mergeVideos w u1 u2 n).result = (tryPhase w u1 u2 n).res := by
    simp [mergeVideos, finallyPhase, hc1, hc2, hr]
  rw [hres] at hfail ⊢
  cases hq : (tryPhase w u1 u2 n).res with
  | ok u => exact absurd hq (hfail u)
  | nullResult => rfl
  | raisedCleanup => exact absurd hq (tryPhase_res_ne_raised w u1 u2 n)

/-- C2 witness: the amended statement applied at a concrete failing run. -/
theorem c2_witness :
    wDl1Fail.close1Ok = true ∧ wDl1Fail.close2Ok = true ∧
    wDl1Fail.rmtreeOk = true ∧
    (mergeVideos wDl1Fail "gs://bucketa/a.mp4" "gs://bucketb/b.mp4" 1).result =
      MergeResult.nullResult := by
  refine ⟨by decide, by decide, by decide, ?_⟩
  refine c2_amended wDl1Fail "gs://bucketa/a.mp4" "gs://bucketb/b.mp4" 1
    (by decide) (by decide) (by decide) ?_
  intro u hu
  have hnull :
      (mergeVideos wDl1Fail "gs://bucketa/a.mp4" "gs://bucketb/b.mp4" 1).result =
        MergeResult.nullResult := by decide
  rw [hnull] at hu
  simp at hu

/-- C4 counterexample: the claim states that a release-phase error is only
logged, never thrown, and never replaces the primary result. In a run whose
pipeline succeeds but whose first clip close raises, the call raises the
cleanup error instead of returning the success URI that the identical run
with a healthy close returns. -/
theorem c4_counterexample :
    (mergeVideos wCloseFail "gs://bucketa/a.mp4" "gs://bucketb/b.mp4" 0).result =
      MergeResult.raisedCleanup ∧
    (mergeVideos wOk "gs://bucketa/a.mp4" "gs://bucketb/b.mp4" 0).result =
      MergeResult.ok "gs://bucketb/stitched_a.mp4" := by
  refine ⟨by decide, by decide⟩

/-- C4 (amended): an error in the release phase is not caught by the
function: when removing the workspace directory fails (after the clip
closes succeed) the cleanup error is raised to the caller and replaces the
primary success or failure result of the pipeline. -/
theorem c4_amended (w : World) (u1 u2 : String) (n : Nat)
    (hc1 : w.close1Ok = true) (hc2 : w.close2Ok = true)
    (hr : w.rmtreeOk = false) :
    (mergeVideos w u1 u2 n).result = MergeResult.raisedCleanup := by
  simp [mergeVideos, finallyPhase, hc1, hc2, hr]

/-- C5: whenever the download of the first input reference fails, no upload
is attempted, the remaining phases are aborted immediately (no decode is
attempted), the finally block still reaches the directory removal, and when
the removal itself succeeds the workspace directory is gone before the call
returns. -/
theorem c5_first_download_fail_aborts (w : World) (u1 u2 : String) (n : Nat)
    (b1 k1 : String)
    (hp : parseGcsUri u1 = some (b1, k1))
    (hd : downloadObject w w.dl1Ok b1 k1 = none) :
    (mergeVideos w u1 u2 n).uploads = [] ∧
    (mergeVideos w u1 u2 n).decodeAttempted = false ∧
    (mergeVideos w u1 u2 n).rmtreeAttempted = true ∧
    (w.rmtreeOk = true → (mergeVideos w u1 u2 n).dirExists = false) := by
  have ht : tryPhase w u1 u2 n =
      { res := .nullResult, uploads := [], outKey := none, localPaths := [],
        decodeAttempted := false, clip1Defined := false, clip2Defined := false,
        uuidNext := n + 1 } := by
    unfold tryPhase
    simp only [hp, hd]
  refine ⟨by simp [mergeVideos, ht], by simp [mergeVideos, ht], ?_, ?_⟩
  · cases hw : w.rmtreeOk <;> simp [mergeVideos, finallyPhase, ht, hw]
  · intro hr
    simp [mergeVideos, finallyPhase, ht, hr]

/-- C5 witness: the statement applied at a concrete run whose first
download fails. -/
theorem c5_witness :
    parseGcsUri "gs://bucketa/a.mp4" = some ("bucketa", "a.mp4") ∧
    downloadObject wDl1Fail wDl1Fail.dl1Ok "bucketa" "a.mp4" = none ∧
    ((mergeVideos wDl1Fail "gs://bucketa/a.mp4" "gs://bucketb/b.mp4" 0).uploads = [] ∧
     (mergeVideos wDl1Fail "gs://bucketa/a.mp4" "gs://bucketb/b.mp4" 0).decodeAttempted = false ∧
     (mergeVideos wDl1Fail "gs://bucketa/a.mp4" "gs://bucketb/b.mp4" 0).rmtreeAttempted = true ∧
     (wDl1Fail.rmtreeOk = true →
       (mergeVideos wDl1Fail "gs://bucketa/a.mp4" "gs://bucketb/b.mp4" 0).dirExists = false)) :=
  ⟨by decide, by decide,
    c5_first_download_fail_aborts wDl1Fail "gs://bucketa/a.mp4"
      "gs://bucketb/b.mp4" 0 "bucketa" "a.mp4" (by decide) (by decide)⟩

/-- C8 counterexample: the claim states that EVERY input string that is not
well-formed as scheme://bucket-name/key-path makes parsing fail and the
call report a failure without an upload. The input a/b is not well-formed
in the sense of the specification (no scheme marker at all), yet the code
parses it as bucket a with key b, and a run with such an object present
performs the upload and returns success. -/
theorem c8_counterexample :
    specWellFormedRef "a/b" = false ∧
    (mergeVideos wOk "a/b" "a/b" 0).uploads =
      [("a", "stitched_a.mp4", [5, 5])] ∧
    (mergeVideos wOk "a/b" "a/b" 0).result =
      MergeResult.ok "gs://a/stitched_a.mp4" := by
  refine ⟨by decide, by decide, by decide⟩

/-- C8 (amended): for every input reference on which the bucket/key
unpacking of line 259 fails — that is, the string obtained by dropping
every occurrence of the gs scheme prefix contains no slash, so parseGcsUri
returns none — merge_videos performs no upload, never reaches the decode
phase, and (when the directory removal succeeds) returns the null failure
result; this holds whether the offending reference is the first or the
second input. -/
theorem c8_amended (w : World) (u1 u2 : String) (n : Nat)
    (h : parseGcsUri u1 = none ∨ parseGcsUri u2 = none) :
    (mergeVideos w u1 u2 n).uploads = [] ∧
    (mergeVideos w u1 u2 n).decodeAttempted = false ∧
    (w.rmtreeOk = true →
      (mergeVideos w u1 u2 n).result = MergeResult.nullResult) := by
  rcases h with h1 | h2
  · have ht : tryPhase w u1 u2 n =
        { res := .nullResult, uploads := [], outKey := none, localPaths := [],
          decodeAttempted := false, clip1Defined := false,
          clip2Defined := false, uuidNext := n + 1 } := by
      unfold tryPhase
      simp only [h1]
    exact abortOutcome w u1 u2 n _ ht rfl rfl rfl rfl rfl
  · cases hp1 : parseGcsUri u1 with
    | none =>
        have ht : tryPhase w u1 u2 n =
            { res := .nullResult, uploads := [], outKey := none,
              localPaths := [], decodeAttempted := false,
              clip1Defined := false, clip2Defined := false,
              uuidNext := n + 1 } := by
          unfold tryPhase
          simp only [hp1]
        exact abortOutcome w u1 u2 n _ ht rfl rfl rfl rfl rfl
    | some p =>
        obtain ⟨b1, k1⟩ := p
        cases hd1 : downloadObject w w.dl1Ok b1 k1 with
        | none =>
            have ht : tryPhase w u1 u2 n =
                { res := .nullResult, uploads := [], outKey := none,
                  localPaths := [], decodeAttempted := false,
                  clip1Defined := false, clip2Defined := false,
                  uuidNext := n + 1 } := by
              unfold tryPhase
              simp only [hp1, hd1]
            exact abortOutcome w u1 u2 n _ ht rfl rfl rfl rfl rfl
        | some c1 =>
            have ht : tryPhase w u1 u2 n =
                { res := .nullResult, uploads := [], outKey := none,
                  localPaths := [osPathJoin k1], decodeAttempted := false,
                  clip1Defined := false, clip2Defined := false,
                  uuidNext := n + 1 } := by
              unfold tryPhase
              simp only [hp1, hd1, h2]
            exact abortOutcome w u1 u2 n _ ht rfl rfl rfl rfl rfl

/-- C8 witness: the amended statement applied to a reference with no slash
after the scheme prefix is dropped. -/
theorem c8_witness :
    parseGcsUri "gs://bucketonly" = none ∧
    ((mergeVideos wOk "gs://bucketonly" "gs://bucketb/b.mp4" 0).uploads = [] ∧
     (mergeVideos wOk "gs://bucketonly" "gs://bucketb/b.mp4" 0).decodeAttempted = false ∧
     (wOk.rmtreeOk = true →
       (mergeVideos wOk "gs://bucketonly" "gs://bucketb/b.mp4" 0).result =
         MergeResult.nullResult)) :=
  ⟨by decide,
    c8_amended wOk "gs://bucketonly" "gs://bucketb/b.mp4" 0
      (Or.inl (by decide))⟩

/-- C7: repeated invocations never collide on the same output key: when the
uuid stream is injective (the uniqueness assumption on uuid4) and a second
call continues the stream where the first stopped, any output key generated
by the first call differs from any output key generated by the second. -/
theorem c7_fresh_keys (w w' : World) (u1 u2 v1 v2 : String) (n : Nat)
    (k1 k2 : String)
    (hinj : Function.Injective w.uuid)
    (hsame : w'.uuid = w.uuid)
    (h1 : (mergeVideos w u1 u2 n).outKey = some k1)
    (h2 : (mergeVideos w' v1 v2 ((mergeVideos w u1 u2 n).uuidEnd)).outKey =
      some k2) :
    k1 ≠ k2 := by
  obtain ⟨hk1, he1⟩ := mergeVideos_outKey w u1 u2 n k1 h1
  obtain ⟨hk2, _⟩ := mergeVideos_outKey w' v1 v2 _ k2 h2
  rw [he1, hsame] at hk2
  intro heq
  rw [hk1, hk2] at heq
  have h3 := hinj (stitched_inj heq)
  omega

/-- C7 witness: the statement applied to two concrete back-to-back calls. -/
theorem c7_witness :
    Function.Injective wOk.uuid ∧
    (mergeVideos wOk "gs://bucketa/a.mp4" "gs://bucketb/b.mp4" 0).outKey =
      some "stitched_a.mp4" ∧
    (mergeVideos wOk "gs://bucketa/x.mp4" "gs://bucketb/x.mp4"
      ((mergeVideos wOk "gs://bucketa/a.mp4" "gs://bucketb/b.mp4" 0).uuidEnd)).outKey =
      some "stitched_aaa.mp4" ∧
    ("stitched_a.mp4" : String) ≠ "stitched_aaa.mp4" :=
  ⟨uuidStream_injective, by decide, by decide,
    c7_fresh_keys wOk wOk "gs://bucketa/a.mp4" "gs://bucketb/b.mp4"
      "gs://bucketa/x.mp4" "gs://bucketb/x.mp4" 0
      "stitched_a.mp4" "stitched_aaa.mp4"
      uuidStream_injective rfl (by decide) (by decide)⟩

/-- C4 witness: the amended statement applied at a concrete run whose
directory removal fails. -/
theorem c4_witness :
    wRmtreeFail.close1Ok = true ∧ wRmtreeFail.close2Ok = true ∧
    wRmtreeFail.rmtreeOk = false ∧
    (mergeVideos wRmtreeFail "gs://bucketa/a.mp4" "gs://bucketb/b.mp4" 0).result =
      MergeResult.raisedCleanup :=
  ⟨by decide, by decide, by decide,
    c4_amended wRmtreeFail "gs://bucketa/a.mp4" "gs://bucketb/b.mp4" 0
      (by decide) (by decide) (by decide)⟩

end AdsMerge
